import Mathlib

/-!
# Twitter-clone backend (`app.js`): relational store, auth gate and handlers

The five SQLite tables are lists of rows in store order.  A `JOIN` is the
nested loop over the tables in `FROM` order, `db.get` is the first row of the
result (or nothing), `db.all` is the whole result.  Each handler is a function
from the store to an `Outcome`: the HTTP response, the store afterwards and the
number of statements sent to the database.  Store failures (the `500`
branches) are not modelled: every statement succeeds.  `date_time` values are
natural numbers ordered chronologically.  Password hashing, hash comparison
and token signing/verification are parameters of the handlers that use them.
-/

namespace Tweets

/-! ## Tables -/

/-- Row of table `user`. -/
structure User where
  user_id : Nat
  name : String
  username : String
  password : String
  gender : String
  deriving DecidableEq

/-- Row of table `follower`: `follower_user_id` follows `following_user_id`. -/
structure Follower where
  follower_user_id : Nat
  following_user_id : Nat
  deriving DecidableEq

/-- Row of table `tweet`. -/
structure Tweet where
  tweet_id : Nat
  tweet : String
  user_id : Nat
  date_time : Nat
  deriving DecidableEq

/-- Row of table `like`. -/
structure Like where
  tweet_id : Nat
  user_id : Nat
  deriving DecidableEq

/-- Row of table `reply`. -/
structure Reply where
  tweet_id : Nat
  user_id : Nat
  reply : String
  deriving DecidableEq

/-- The database `twitterClone.db`. -/
structure Store where
  user : List User
  follower : List Follower
  tweet : List Tweet
  like : List Like
  reply : List Reply
  deriving DecidableEq

/-! ## Responses -/

/-- Row of the feed: `SELECT u.username, t.tweet, t.date_time`. -/
structure FeedRow where
  username : String
  tweet : String
  date_time : Nat
  deriving DecidableEq

/-- Row of tweet detail and of own tweets: `SELECT t.tweet, likes, replies, t.date_time`. -/
structure TweetRow where
  tweet : String
  likes : Nat
  replies : Nat
  date_time : Nat
  deriving DecidableEq

/-- Row of the replies query: `SELECT u.name, r.reply`. -/
structure ReplyRow where
  name : String
  reply : String
  deriving DecidableEq

/-- Body of a response: `res.send(text)` or one of the `res.json(...)` shapes. -/
inductive Body where
  | text (msg : String)
  | jwtToken (token : String)
  | feed (rows : List FeedRow)
  | followingList (names : List String)
  | followersList (names : List String)
  | tweetDetail (row : TweetRow)
  | likes (usernames : List String)
  | tweetAndReplies (tweet : Option ReplyRow) (replies : List ReplyRow)
  | userTweets (rows : List TweetRow)
  deriving DecidableEq

/-- An HTTP response: status code and body. -/
structure Response where
  status : Nat
  body : Body
  deriving DecidableEq

/-- Result of handling one request. -/
structure Outcome where
  res : Response
  store : Store
  queries : Nat
  deriving DecidableEq

/-! ## Store-assigned keys -/

/-- Modelled from the spec: the `CREATE TABLE` statements are not part of the
source.  The `INSERT` statements give no `user_id`/`tweet_id`, so the store
assigns the surrogate id; this is SQLite's rowid rule, one more than the
largest id in the table (1 for an empty table). -/
def nextRowid (ids : List Nat) : Nat :=
  ids.foldr max 0 + 1

/-- Length of a JavaScript string (`password.length`): UTF-16 code units. -/
def jsLength (s : String) : Nat :=
  (s.toList.map fun c => if c.toNat < 65536 then 1 else 2).sum

/-! ## API 1 and 2: register and login -/

/-- Result of `db.get("SELECT * FROM user WHERE username = ?")`. -/
def userByUsername (s : Store) (username : String) : Option User :=
  s.user.find? fun u => decide (u.username = username)

/-- `INSERT INTO user (name, username, password, gender)`. -/
def insertUser (s : Store) (name username hashed gender : String) : Store :=
  { s with user := s.user ++
      [⟨nextRowid (s.user.map User.user_id), name, username, hashed, gender⟩] }

/-- Handler of `POST /register`; `hash` is `bcrypt.hash(·, 10)`. -/
def register (hash : String → String) (s : Store)
    (username password name gender : String) : Outcome :=
  match userByUsername s username with
  | some _ => ⟨⟨400, .text "User already exists"⟩, s, 1⟩
  | none =>
    if jsLength password < 6 then
      ⟨⟨400, .text "Password is too short"⟩, s, 1⟩
    else
      ⟨⟨200, .text "User created successfully"⟩,
        insertUser s name username (hash password) gender, 2⟩

/-- Handler of `POST /login/`; `compare` is `bcrypt.compare`, `sign` is
`jwt.sign` of the `userId` claim with the key `"secretKey"`. -/
def login (compare : String → String → Bool) (sign : Nat → String) (s : Store)
    (username password : String) : Outcome :=
  match userByUsername s username with
  | none => ⟨⟨400, .text "Invalid user"⟩, s, 1⟩
  | some row =>
    if compare password row.password then
      ⟨⟨200, .jwtToken (sign row.user_id)⟩, s, 1⟩
    else
      ⟨⟨400, .text "Invalid password"⟩, s, 1⟩

/-! ## Middleware -/

/-- The rejection sent by `authenticateToken`. -/
def invalidJwt (s : Store) : Outcome :=
  ⟨⟨401, .text "Invalid JWT Token"⟩, s, 0⟩

/-- Middleware `authenticateToken`: `token` is `req.header("Authorization")`
(`none` when the header is absent), `verify` is `jwt.verify(·, "secretKey")`
followed by reading the `userId` claim, `next` is the rest of the route. -/
def authenticateToken (verify : String → Option Nat) (token : Option String)
    (next : Nat → Store → Outcome) (s : Store) : Outcome :=
  match token with
  | none => invalidJwt s
  | some tok =>
    if tok = "" then invalidJwt s
    else
      match verify tok with
      | none => invalidJwt s
      | some userId => next userId s

/-! ## API 3: feed -/

/-- The joined rows of the feed query before `ORDER BY` and `LIMIT`:
`FROM follower AS f JOIN tweet AS t ON t.user_id = f.following_user_id
JOIN user AS u ON u.user_id = t.user_id WHERE f.follower_user_id = ?`. -/
def feedJoin (s : Store) (userId : Nat) : List (Follower × Tweet × User) :=
  (s.follower.filter fun f => decide (f.follower_user_id = userId)).flatMap fun f =>
    (s.tweet.filter fun t => decide (t.user_id = f.following_user_id)).flatMap fun t =>
      (s.user.filter fun u => decide (u.user_id = t.user_id)).map fun u => (f, t, u)

/-- The order of `ORDER BY t.date_time DESC`: `a` may come before `b`. -/
def dateDesc (a b : Follower × Tweet × User) : Prop :=
  b.2.1.date_time ≤ a.2.1.date_time

instance : DecidableRel dateDesc :=
  fun a b => inferInstanceAs (Decidable (b.2.1.date_time ≤ a.2.1.date_time))

instance : IsTotal (Follower × Tweet × User) dateDesc :=
  ⟨fun a b => Nat.le_total b.2.1.date_time a.2.1.date_time⟩

instance : IsTrans (Follower × Tweet × User) dateDesc :=
  ⟨fun _ _ _ hab hbc => Nat.le_trans hbc hab⟩

/-- The joined rows kept by `ORDER BY t.date_time DESC LIMIT 4`.  Rows of equal
`date_time` stay in join order; no statement below depends on that choice. -/
def feedSelect (s : Store) (userId : Nat) : List (Follower × Tweet × User) :=
  ((feedJoin s userId).insertionSort dateDesc).take 4

/-- The select list `u.username, t.tweet, t.date_time`. -/
def feedRow (x : Follower × Tweet × User) : FeedRow :=
  ⟨x.2.2.username, x.2.1.tweet, x.2.1.date_time⟩

/-- Handler of `GET /user/tweets/feed/` after the middleware. -/
def getFeed (userId : Nat) (s : Store) : Outcome :=
  ⟨⟨200, .feed ((feedSelect s userId).map feedRow)⟩, s, 1⟩

/-! ## API 4 and 5: following and followers -/

/-- Handler of `GET /user/following/` after the middleware. -/
def getFollowing (userId : Nat) (s : Store) : Outcome :=
  let rows := (s.follower.filter fun f => decide (f.follower_user_id = userId)).flatMap fun f =>
    (s.user.filter fun u => decide (u.user_id = f.following_user_id)).map fun u => u.name
  ⟨⟨200, .followingList rows⟩, s, 1⟩

/-- Handler of `GET /user/followers/` after the middleware. -/
def getFollowers (userId : Nat) (s : Store) : Outcome :=
  let rows := (s.follower.filter fun f => decide (f.following_user_id = userId)).flatMap fun f =>
    (s.user.filter fun u => decide (u.user_id = f.follower_user_id)).map fun u => u.name
  ⟨⟨200, .followersList rows⟩, s, 1⟩

/-! ## API 6, 7, 8: tweet detail, likes, replies -/

/-- The join shared by the three gated reads:
`FROM tweet AS t JOIN follower AS f ON t.user_id = f.following_user_id
WHERE t.tweet_id = ? AND f.follower_user_id = ?`. -/
def gateJoin (s : Store) (userId tweetId : Nat) : List (Tweet × Follower) :=
  (s.tweet.filter fun t => decide (t.tweet_id = tweetId)).flatMap fun t =>
    (s.follower.filter fun f =>
      decide (t.user_id = f.following_user_id) && decide (f.follower_user_id = userId)).map
      fun f => (t, f)

/-- `SELECT COUNT(*) FROM like WHERE tweet_id = ?`. -/
def likeCount (s : Store) (tweetId : Nat) : Nat :=
  (s.like.filter fun l => decide (l.tweet_id = tweetId)).length

/-- `SELECT COUNT(*) FROM reply WHERE tweet_id = ?`. -/
def replyCount (s : Store) (tweetId : Nat) : Nat :=
  (s.reply.filter fun r => decide (r.tweet_id = tweetId)).length

/-- The rejection of the gated reads and of delete. -/
def invalidRequest (s : Store) (queries : Nat) : Outcome :=
  ⟨⟨401, .text "Invalid Request"⟩, s, queries⟩

/-- Handler of `GET /tweets/:tweetId` after the middleware. -/
def getTweet (userId tweetId : Nat) (s : Store) : Outcome :=
  match (gateJoin s userId tweetId).head? with
  | none => invalidRequest s 1
  | some (t, _) =>
    ⟨⟨200, .tweetDetail ⟨t.tweet, likeCount s tweetId, replyCount s tweetId, t.date_time⟩⟩, s, 1⟩

/-- The likes query: `FROM like AS l JOIN user AS u ON u.user_id = l.user_id
WHERE l.tweet_id = ?`, select list `u.username`. -/
def likesJoin (s : Store) (tweetId : Nat) : List String :=
  (s.like.filter fun l => decide (l.tweet_id = tweetId)).flatMap fun l =>
    (s.user.filter fun u => decide (u.user_id = l.user_id)).map fun u => u.username

/-- Handler of `GET /tweets/:tweetId/likes` after the middleware. -/
def getLikes (userId tweetId : Nat) (s : Store) : Outcome :=
  match (gateJoin s userId tweetId).head? with
  | none => invalidRequest s 1
  | some _ => ⟨⟨200, .likes (likesJoin s tweetId)⟩, s, 2⟩

/-- The replies query: `FROM reply AS r JOIN user AS u ON u.user_id = r.user_id
WHERE r.tweet_id = ?`, select list `u.name, r.reply`. -/
def repliesJoin (s : Store) (tweetId : Nat) : List ReplyRow :=
  (s.reply.filter fun r => decide (r.tweet_id = tweetId)).flatMap fun r =>
    (s.user.filter fun u => decide (u.user_id = r.user_id)).map fun u => ⟨u.name, r.reply⟩

/-- Handler of `GET /tweets/:tweetId/replies` after the middleware: the
response is built from `rows[0]` and `rows.slice(1)` of the replies query. -/
def getReplies (userId tweetId : Nat) (s : Store) : Outcome :=
  match (gateJoin s userId tweetId).head? with
  | none => invalidRequest s 1
  | some _ =>
    let rows := repliesJoin s tweetId
    ⟨⟨200, .tweetAndReplies rows.head? (rows.drop 1)⟩, s, 2⟩

/-! ## API 9, 10, 11: own tweets, create, delete -/

/-- Row of the own-tweets query for tweet `t`, with its two counting subqueries. -/
def userTweetRow (s : Store) (t : Tweet) : TweetRow :=
  ⟨t.tweet, likeCount s t.tweet_id, replyCount s t.tweet_id, t.date_time⟩

/-- The rows of `FROM tweet AS t WHERE t.user_id = ?`. -/
def userTweetRows (s : Store) (userId : Nat) : List TweetRow :=
  (s.tweet.filter fun t => decide (t.user_id = userId)).map (userTweetRow s)

/-- Handler of `GET /user/tweets` after the middleware. -/
def getUserTweets (userId : Nat) (s : Store) : Outcome :=
  ⟨⟨200, .userTweets (userTweetRows s userId)⟩, s, 1⟩

/-- `INSERT INTO tweet (tweet, user_id, date_time) VALUES (?, ?, datetime('now'))`;
`now` is the value of `datetime('now')`. -/
def insertTweet (now : Nat) (s : Store) (tweet : String) (userId : Nat) : Store :=
  { s with tweet := s.tweet ++
      [⟨nextRowid (s.tweet.map Tweet.tweet_id), tweet, userId, now⟩] }

/-- Handler of `POST /user/tweets` after the middleware. -/
def createTweet (now : Nat) (tweet : String) (userId : Nat) (s : Store) : Outcome :=
  ⟨⟨200, .text "Created a Tweet"⟩, insertTweet now s tweet userId, 1⟩

/-- Result of `db.get("SELECT * FROM tweet WHERE tweet_id = ? AND user_id = ?")`. -/
def ownedTweet (s : Store) (tweetId userId : Nat) : Option Tweet :=
  s.tweet.find? fun t => decide (t.tweet_id = tweetId) && decide (t.user_id = userId)

/-- `DELETE FROM tweet WHERE tweet_id = ?`. -/
def deleteTweetRows (s : Store) (tweetId : Nat) : Store :=
  { s with tweet := s.tweet.filter fun t => !decide (t.tweet_id = tweetId) }

/-- Handler of `DELETE /tweets/:tweetId` after the middleware. -/
def deleteTweet (userId tweetId : Nat) (s : Store) : Outcome :=
  match ownedTweet s tweetId userId with
  | none => invalidRequest s 1
  | some _ => ⟨⟨200, .text "Tweet Removed"⟩, deleteTweetRows s tweetId, 2⟩

/-! ## Routes -/

/-- The nine routes registered with `authenticateToken`. -/
inductive Endpoint where
  | feed | following | followers | tweet | likes | replies
  | userTweets | createTweet | deleteTweet
  deriving DecidableEq

/-- What a handler reads from the request besides the token: `req.params.tweetId`
(the number the path segment stands for when compared with column `tweet_id`)
and `req.body.tweet`. -/
structure Request where
  authorization : Option String
  tweetId : Nat
  tweet : String
  deriving DecidableEq

/-- The handler registered for each route. -/
def handler (now : Nat) (e : Endpoint) (req : Request) : Nat → Store → Outcome :=
  match e with
  | .feed => fun userId => getFeed userId
  | .following => fun userId => getFollowing userId
  | .followers => fun userId => getFollowers userId
  | .tweet => fun userId => getTweet userId req.tweetId
  | .likes => fun userId => getLikes userId req.tweetId
  | .replies => fun userId => getReplies userId req.tweetId
  | .userTweets => fun userId => getUserTweets userId
  | .createTweet => fun userId => createTweet now req.tweet userId
  | .deleteTweet => fun userId => deleteTweet userId req.tweetId

/-- A protected route: `app.METHOD(path, authenticateToken, handler)`. -/
def route (verify : String → Option Nat) (now : Nat) (e : Endpoint) (req : Request)
    (s : Store) : Outcome :=
  authenticateToken verify req.authorization (handler now e req) s

/-! ## Predicates on the store -/

/-- A follow edge from `a` to `b` exists. -/
def Follows (s : Store) (a b : Nat) : Prop :=
  ∃ f ∈ s.follower, f.follower_user_id = a ∧ f.following_user_id = b

instance (s : Store) (a b : Nat) : Decidable (Follows s a b) := by
  unfold Follows; infer_instance

/-- A tweet with id `tweetId` exists whose author is the target of a follow
edge from `userId`. -/
def Visible (s : Store) (userId tweetId : Nat) : Prop :=
  ∃ t ∈ s.tweet, t.tweet_id = tweetId ∧ Follows s userId t.user_id

instance (s : Store) (a b : Nat) : Decidable (Visible s a b) := by
  unfold Visible; infer_instance

/-- Every like row of tweet `tweetId` carries the id of exactly one identity:
`user_id` is the key of table `user` and the liker is in it. -/
def LikersResolve (s : Store) (tweetId : Nat) : Prop :=
  ∀ l ∈ s.like, l.tweet_id = tweetId →
    (s.user.filter fun u => decide (u.user_id = l.user_id)).length = 1

instance (s : Store) (t : Nat) : Decidable (LikersResolve s t) := by
  unfold LikersResolve; infer_instance

/-- Handle of the identity with id `userId`, if there is one. -/
def handleOf (s : Store) (userId : Nat) : Option String :=
  (s.user.find? fun u => decide (u.user_id = userId)).map User.username

/-! ## Example services -/

/-- A token service for examples: the token of id `n` is `n + 1` letters. -/
def demoSign (userId : Nat) : String :=
  String.mk (List.replicate (userId + 1) 'x')

/-- Verification for `demoSign`: only non-empty runs of the letter verify. -/
def demoVerify (token : String) : Option Nat :=
  if token.data = List.replicate token.data.length 'x' ∧ token.data ≠ [] then
    some (token.data.length - 1)
  else none

/-- A credential check for examples: the stored hash is the secret itself. -/
def demoCompare (password hashed : String) : Bool :=
  decide (password = hashed)

/-! ## Example stores -/

/-- Two users, user 1 follows user 2, one tweet by each, a like and a reply on tweet 10. -/
def demo : Store where
  user := [⟨1, "Ann", "ann", "h1", "f"⟩, ⟨2, "Bob", "bob", "h2", "m"⟩]
  follower := [⟨1, 2⟩]
  tweet := [⟨10, "hi", 2, 5⟩, ⟨11, "mine", 1, 6⟩]
  like := [⟨10, 1⟩]
  reply := [⟨10, 1, "nice"⟩, ⟨10, 2, "thanks"⟩]

/-- The store `demo` without tweet 11. -/
def demoWithout11 : Store :=
  { demo with tweet := [⟨10, "hi", 2, 5⟩] }

/-- Tweet 11 of user 1 has the largest id and carries a like and a reply of user 2. -/
def reuseDemo : Store where
  user := [⟨1, "Ann", "ann", "h1", "f"⟩, ⟨2, "Bob", "bob", "h2", "m"⟩]
  follower := [⟨2, 1⟩]
  tweet := [⟨10, "hi", 2, 5⟩, ⟨11, "mine", 1, 6⟩]
  like := [⟨11, 2⟩]
  reply := [⟨11, 2, "good"⟩]

/-- No tweet yet; the like table already holds a row for tweet id 1. -/
def priorLikeDemo : Store where
  user := [⟨1, "Ann", "ann", "h1", "f"⟩, ⟨2, "Bob", "bob", "h2", "m"⟩]
  follower := []
  tweet := []
  like := [⟨1, 2⟩]
  reply := []

/-- The store `demo` with a second like on tweet 10, by user id 7, which is in
no row of table `user`. -/
def danglingLikeDemo : Store :=
  { demo with like := [⟨10, 1⟩, ⟨10, 7⟩] }

/-- User 1 follows users 2 and 3 but not user 4; six tweets by followed authors. -/
def feedDemo : Store where
  user := [⟨1, "Ann", "ann", "h1", "f"⟩, ⟨2, "Bob", "bob", "h2", "m"⟩,
    ⟨3, "Cy", "cy", "h3", "m"⟩, ⟨4, "Dee", "dee", "h4", "f"⟩]
  follower := [⟨1, 2⟩, ⟨1, 3⟩, ⟨4, 1⟩]
  tweet := [⟨1, "a", 2, 10⟩, ⟨2, "b", 3, 20⟩, ⟨3, "c", 4, 30⟩, ⟨4, "d", 2, 40⟩,
    ⟨5, "e", 3, 50⟩, ⟨6, "f", 2, 60⟩, ⟨7, "g", 3, 70⟩]
  like := []
  reply := []

/-! ## The handlers on the example store -/

example : (getFeed 1 demo).res = ⟨200, .feed [⟨"bob", "hi", 5⟩]⟩ := by decide
example : (getTweet 1 10 demo).res = ⟨200, .tweetDetail ⟨"hi", 1, 2, 5⟩⟩ := by decide
example : (getTweet 1 11 demo).res = ⟨401, .text "Invalid Request"⟩ := by decide
example : (getReplies 1 10 demo).res =
    ⟨200, .tweetAndReplies (some ⟨"Ann", "nice"⟩) [⟨"Bob", "thanks"⟩]⟩ := by
  decide
example : ((createTweet 9 "x" 1 demo).store.tweet.map Tweet.tweet_id) = [10, 11, 12] := by decide
example : (register id demo "ann" "abc" "A" "f").res = ⟨400, .text "User already exists"⟩ := by
  decide

/-! ## Lemmas on the queries -/

theorem mem_feedJoin (s : Store) (C : Nat) (x : Follower × Tweet × User) :
    x ∈ feedJoin s C ↔
      x.1 ∈ s.follower ∧ x.2.1 ∈ s.tweet ∧ x.2.2 ∈ s.user ∧ x.1.follower_user_id = C ∧
        x.2.1.user_id = x.1.following_user_id ∧ x.2.2.user_id = x.2.1.user_id := by
  obtain ⟨f, t, u⟩ := x
  simp only [feedJoin, List.mem_flatMap, List.mem_filter, List.mem_map, decide_eq_true_eq,
    Prod.mk.injEq]
  constructor
  · rintro ⟨f', ⟨hf, hC⟩, t', ⟨ht, htu⟩, u', ⟨hu, huu⟩, rfl, rfl, rfl⟩
    exact ⟨hf, ht, hu, hC, htu, huu⟩
  · rintro ⟨hf, ht, hu, hC, htu, huu⟩
    exact ⟨f, ⟨hf, hC⟩, t, ⟨ht, htu⟩, u, ⟨hu, huu⟩, rfl, rfl, rfl⟩

theorem mem_gateJoin (s : Store) (C tweetId : Nat) (x : Tweet × Follower) :
    x ∈ gateJoin s C tweetId ↔
      x.1 ∈ s.tweet ∧ x.1.tweet_id = tweetId ∧ x.2 ∈ s.follower ∧
        x.1.user_id = x.2.following_user_id ∧ x.2.follower_user_id = C := by
  obtain ⟨t, f⟩ := x
  simp only [gateJoin, List.mem_flatMap, List.mem_filter, List.mem_map, decide_eq_true_eq,
    Bool.and_eq_true, Prod.mk.injEq]
  constructor
  · rintro ⟨t', ⟨ht, hid⟩, f', ⟨hf, htf, hC⟩, rfl, rfl⟩
    exact ⟨ht, hid, hf, htf, hC⟩
  · rintro ⟨ht, hid, hf, htf, hC⟩
    exact ⟨t, ⟨ht, hid⟩, f, ⟨hf, htf, hC⟩, rfl, rfl⟩

theorem gateJoin_eq_nil_iff (s : Store) (C tweetId : Nat) :
    gateJoin s C tweetId = [] ↔ ¬ Visible s C tweetId := by
  rw [List.eq_nil_iff_forall_not_mem]
  constructor
  · rintro h ⟨t, ht, hid, f, hf, hC, hft⟩
    exact h (t, f) ((mem_gateJoin s C tweetId (t, f)).2 ⟨ht, hid, hf, hft.symm, hC⟩)
  · rintro h ⟨t, f⟩ hx
    obtain ⟨ht, hid, hf, htf, hC⟩ := (mem_gateJoin s C tweetId (t, f)).1 hx
    exact h ⟨t, ht, hid, f, hf, hC, htf.symm⟩

theorem gate_head_none (s : Store) (C tweetId : Nat) :
    (gateJoin s C tweetId).head? = none ↔ ¬ Visible s C tweetId := by
  rw [List.head?_eq_none_iff, gateJoin_eq_nil_iff]

theorem gate_head_some (s : Store) (C tweetId : Nat) (h : Visible s C tweetId) :
    ∃ t f, (gateJoin s C tweetId).head? = some (t, f) ∧ t ∈ s.tweet ∧ t.tweet_id = tweetId ∧
      f ∈ s.follower ∧ f.follower_user_id = C ∧ f.following_user_id = t.user_id := by
  cases hg : (gateJoin s C tweetId).head? with
  | none => exact absurd h ((gate_head_none s C tweetId).1 hg)
  | some x =>
    obtain ⟨t, f⟩ := x
    have hx : (t, f) ∈ gateJoin s C tweetId := List.mem_of_mem_head? hg
    obtain ⟨ht, hid, hf, htf, hC⟩ := (mem_gateJoin s C tweetId (t, f)).1 hx
    exact ⟨t, f, rfl, ht, hid, hf, hC, htf.symm⟩

theorem getTweet_of_not_visible (s : Store) (C tweetId : Nat) (h : ¬ Visible s C tweetId) :
    getTweet C tweetId s = invalidRequest s 1 := by
  simp [getTweet, (gate_head_none s C tweetId).2 h]

theorem getLikes_of_not_visible (s : Store) (C tweetId : Nat) (h : ¬ Visible s C tweetId) :
    getLikes C tweetId s = invalidRequest s 1 := by
  simp [getLikes, (gate_head_none s C tweetId).2 h]

theorem getReplies_of_not_visible (s : Store) (C tweetId : Nat) (h : ¬ Visible s C tweetId) :
    getReplies C tweetId s = invalidRequest s 1 := by
  simp [getReplies, (gate_head_none s C tweetId).2 h]

theorem getTweet_of_visible (s : Store) (C tweetId : Nat) (h : Visible s C tweetId) :
    ∃ t ∈ s.tweet, t.tweet_id = tweetId ∧ Follows s C t.user_id ∧
      getTweet C tweetId s =
        ⟨⟨200, .tweetDetail ⟨t.tweet, likeCount s tweetId, replyCount s tweetId, t.date_time⟩⟩,
          s, 1⟩ := by
  obtain ⟨t, f, hg, ht, hid, hf, hC, hft⟩ := gate_head_some s C tweetId h
  exact ⟨t, ht, hid, ⟨f, hf, hC, hft⟩, by simp [getTweet, hg]⟩

theorem getLikes_of_visible (s : Store) (C tweetId : Nat) (h : Visible s C tweetId) :
    getLikes C tweetId s = ⟨⟨200, .likes (likesJoin s tweetId)⟩, s, 2⟩ := by
  obtain ⟨t, f, hg, -⟩ := gate_head_some s C tweetId h
  simp [getLikes, hg]

theorem getReplies_of_visible (s : Store) (C tweetId : Nat) (h : Visible s C tweetId) :
    getReplies C tweetId s =
      ⟨⟨200, .tweetAndReplies (repliesJoin s tweetId).head? ((repliesJoin s tweetId).drop 1)⟩,
        s, 2⟩ := by
  obtain ⟨t, f, hg, -⟩ := gate_head_some s C tweetId h
  simp [getReplies, hg]

/-! ## C1: feed -/

/-- C1. For every store and caller `C` the feed handler answers 200 with at
most 4 rows and leaves the store alone; every returned row comes from a tweet
whose author is the target of a follow edge from `C` and carries that author's
handle and the tweet's timestamp (so no tweet of an identity `C` does not
follow appears); the rows are in non-increasing timestamp order; and the rows
left out of the full join (every follow edge from `C`, tweet of its target and
identity of that author is in the join) are never newer than a returned row:
a tweet of an identity that `C` follows is either returned or not newer than
any returned row.  The number of rows is the smaller of 4 and the size of the
join, the returned rows being the first ones of the join sorted by timestamp
descending: nothing is dropped while fewer than 4 rows are returned. -/
theorem feed_contract (s : Store) (C : Nat) :
    (getFeed C s).res = ⟨200, .feed ((feedSelect s C).map feedRow)⟩ ∧
    (getFeed C s).store = s ∧
    ((feedSelect s C).map feedRow).length ≤ 4 ∧
    (∀ x ∈ feedSelect s C, x.2.1 ∈ s.tweet ∧ x.2.2 ∈ s.user ∧
      x.2.2.user_id = x.2.1.user_id ∧ Follows s C x.2.1.user_id ∧
      feedRow x = ⟨x.2.2.username, x.2.1.tweet, x.2.1.date_time⟩) ∧
    ((feedSelect s C).map feedRow).Pairwise (fun a b => b.date_time ≤ a.date_time) ∧
    (∃ rest, (feedSelect s C ++ rest).Perm (feedJoin s C) ∧
      ∀ x ∈ rest, ∀ y ∈ feedSelect s C, x.2.1.date_time ≤ y.2.1.date_time) ∧
    (∀ f ∈ s.follower, ∀ t ∈ s.tweet, ∀ u ∈ s.user, f.follower_user_id = C →
      t.user_id = f.following_user_id → u.user_id = t.user_id → (f, t, u) ∈ feedJoin s C) ∧
    (∀ t ∈ s.tweet, ∀ u ∈ s.user, u.user_id = t.user_id → Follows s C t.user_id →
      (∃ x ∈ feedSelect s C, x.2.1 = t) ∨
        ∀ y ∈ feedSelect s C, t.date_time ≤ y.2.1.date_time) ∧
    ((feedSelect s C).map feedRow).length = min 4 (feedJoin s C).length ∧
    feedSelect s C ++ ((feedJoin s C).insertionSort dateDesc).drop 4 =
      (feedJoin s C).insertionSort dateDesc := by
  have hsorted := List.sorted_insertionSort dateDesc (feedJoin s C)
  have hperm := List.perm_insertionSort dateDesc (feedJoin s C)
  have hsplit := List.take_append_drop 4 ((feedJoin s C).insertionSort dateDesc)
  have hrest : ∀ x ∈ ((feedJoin s C).insertionSort dateDesc).drop 4,
      ∀ y ∈ feedSelect s C, x.2.1.date_time ≤ y.2.1.date_time := by
    intro x hx y hy
    have hp : (((feedJoin s C).insertionSort dateDesc).take 4 ++
        ((feedJoin s C).insertionSort dateDesc).drop 4).Pairwise dateDesc := by
      rw [hsplit]; exact hsorted
    exact (List.pairwise_append.1 hp).2.2 y hy x hx
  refine ⟨rfl, rfl, ?_, ?_, ?_, ?_, ?_, ?_, ?_, hsplit⟩
  · rw [List.length_map]
    exact List.length_take_le 4 _
  · intro x hx
    have hx' : x ∈ feedJoin s C := hperm.subset (List.mem_of_mem_take hx)
    obtain ⟨hf, ht, hu, hC, htf, hut⟩ := (mem_feedJoin s C x).1 hx'
    exact ⟨ht, hu, hut, ⟨x.1, hf, hC, htf.symm⟩, rfl⟩
  · rw [List.pairwise_map]
    exact List.Pairwise.sublist (List.take_sublist 4 _) hsorted
  · refine ⟨((feedJoin s C).insertionSort dateDesc).drop 4, ?_, ?_⟩
    · unfold feedSelect
      rw [hsplit]
      exact hperm
    · exact hrest
  · intro f hf t ht u hu hC htf hut
    exact (mem_feedJoin s C (f, t, u)).2 ⟨hf, ht, hu, hC, htf, hut⟩
  · rintro t ht u hu hut ⟨f, hf, hC, hft⟩
    have hj : (f, t, u) ∈ feedJoin s C :=
      (mem_feedJoin s C (f, t, u)).2 ⟨hf, ht, hu, hC, hft.symm, hut⟩
    have hs : (f, t, u) ∈ (feedJoin s C).insertionSort dateDesc := hperm.symm.subset hj
    rw [← hsplit, List.mem_append] at hs
    rcases hs with hs | hs
    · exact Or.inl ⟨(f, t, u), hs, rfl⟩
    · exact Or.inr fun y hy => hrest (f, t, u) hs y hy
  · rw [List.length_map]
    unfold feedSelect
    rw [List.length_take, hperm.length_eq]

/-- Witness of C1 on `feedDemo`: the four newest tweets of users 2 and 3. -/
theorem feed_contract_witness :
    (getFeed 1 feedDemo).res =
        ⟨200, .feed [⟨"cy", "g", 70⟩, ⟨"bob", "f", 60⟩, ⟨"cy", "e", 50⟩, ⟨"bob", "d", 40⟩]⟩ ∧
      (feedJoin feedDemo 1).length = 6 ∧
      (∃ rest, (feedSelect feedDemo 1 ++ rest).Perm (feedJoin feedDemo 1) ∧
        ∀ x ∈ rest, ∀ y ∈ feedSelect feedDemo 1, x.2.1.date_time ≤ y.2.1.date_time) ∧
      ((feedSelect feedDemo 1).map feedRow).length = min 4 (feedJoin feedDemo 1).length :=
  ⟨by decide, by decide, (feed_contract feedDemo 1).2.2.2.2.2.1,
    (feed_contract feedDemo 1).2.2.2.2.2.2.2.2.1⟩

/-! ## C2: tweet detail -/

/-- C2. For every caller `C` and tweet id `t`, tweet detail answers 200 exactly
when a tweet with id `t` exists whose author is the target of a follow edge
from `C` (and then carries that tweet's text, counts and timestamp); in every
other case the response is 401 "Invalid Request"; so for a store `s` in which
`t` exists but `C` follows no author of it and a store `s'` in which `t` does
not exist, the two responses are equal in status and body. -/
theorem tweet_detail_gate (s s' : Store) (C t : Nat) :
    ((getTweet C t s).res.status = 200 ↔ Visible s C t) ∧
    (Visible s C t → ∃ tw ∈ s.tweet, tw.tweet_id = t ∧ Follows s C tw.user_id ∧
      (getTweet C t s).res =
        ⟨200, .tweetDetail ⟨tw.tweet, likeCount s t, replyCount s t, tw.date_time⟩⟩) ∧
    (¬ Visible s C t → (getTweet C t s).res = ⟨401, .text "Invalid Request"⟩) ∧
    ((∃ tw ∈ s.tweet, tw.tweet_id = t) →
      (∀ tw ∈ s.tweet, tw.tweet_id = t → ¬ Follows s C tw.user_id) →
      (∀ tw ∈ s'.tweet, tw.tweet_id ≠ t) →
      (getTweet C t s).res = (getTweet C t s').res ∧
        (getTweet C t s).res = ⟨401, .text "Invalid Request"⟩) := by
  refine ⟨?_, ?_, ?_, ?_⟩
  · by_cases h : Visible s C t
    · obtain ⟨tw, -, -, -, hres⟩ := getTweet_of_visible s C t h
      simp [hres, h]
    · simp [getTweet_of_not_visible s C t h, h, invalidRequest]
  · intro h
    obtain ⟨tw, htw, hid, hfol, hres⟩ := getTweet_of_visible s C t h
    exact ⟨tw, htw, hid, hfol, by rw [hres]⟩
  · intro h
    rw [getTweet_of_not_visible s C t h]; rfl
  · intro _ hnf hne
    have h1 : ¬ Visible s C t := fun ⟨tw, htw, hid, hfol⟩ => hnf tw htw hid hfol
    have h2 : ¬ Visible s' C t := fun ⟨tw, htw, hid, _⟩ => hne tw htw hid
    rw [getTweet_of_not_visible s C t h1, getTweet_of_not_visible s' C t h2]
    exact ⟨rfl, rfl⟩

/-- Witness of C2: user 1 asks for tweet 11, which exists in `demo` (written by
user 1, whom user 1 does not follow) and is absent from `demoWithout11`. -/
theorem tweet_detail_gate_witness :
    (∃ tw ∈ demo.tweet, tw.tweet_id = 11) ∧
      (∀ tw ∈ demoWithout11.tweet, tw.tweet_id ≠ 11) ∧
      (getTweet 1 11 demo).res = (getTweet 1 11 demoWithout11).res ∧
      (getTweet 1 11 demo).res = ⟨401, .text "Invalid Request"⟩ :=
  ⟨by decide, by decide,
    (tweet_detail_gate demo demoWithout11 1 11).2.2.2 (by decide) (by decide) (by decide)⟩

/-! ## C3: the visibility gate and the author -/

/-- C3, counterexample. In `demo` tweet 11 is written by user 1, who has no
follow edge to themself: detail, likes and replies of tweet 11 are all refused
to user 1 with 401 "Invalid Request". -/
theorem gate_rejects_author :
    (∃ tw ∈ demo.tweet, tw.tweet_id = 11 ∧ tw.user_id = 1) ∧
      (getTweet 1 11 demo).res = ⟨401, .text "Invalid Request"⟩ ∧
      (getLikes 1 11 demo).res = ⟨401, .text "Invalid Request"⟩ ∧
      (getReplies 1 11 demo).res = ⟨401, .text "Invalid Request"⟩ := by
  decide

/-- C3, amended. For every caller `C` and tweet id `t`, each gated read (tweet
detail, likes, replies) grants access (200) exactly when a tweet with id `t`
exists whose author is the target of a follow edge from `C`; authorship alone
grants nothing: when the tweets with id `t` are written by `C` and `C` has no
follow edge to themself, all three reads answer 401 "Invalid Request". -/
theorem gate_follow_only (s : Store) (C t : Nat) :
    ((getTweet C t s).res.status = 200 ↔ Visible s C t) ∧
    ((getLikes C t s).res.status = 200 ↔ Visible s C t) ∧
    ((getReplies C t s).res.status = 200 ↔ Visible s C t) ∧
    ((∀ tw ∈ s.tweet, tw.tweet_id = t → tw.user_id = C) → ¬ Follows s C C →
      (getTweet C t s).res = ⟨401, .text "Invalid Request"⟩ ∧
      (getLikes C t s).res = ⟨401, .text "Invalid Request"⟩ ∧
      (getReplies C t s).res = ⟨401, .text "Invalid Request"⟩) := by
  refine ⟨?_, ?_, ?_, ?_⟩
  · by_cases h : Visible s C t
    · obtain ⟨tw, -, -, -, hres⟩ := getTweet_of_visible s C t h
      simp [hres, h]
    · simp [getTweet_of_not_visible s C t h, h, invalidRequest]
  · by_cases h : Visible s C t
    · simp [getLikes_of_visible s C t h, h]
    · simp [getLikes_of_not_visible s C t h, h, invalidRequest]
  · by_cases h : Visible s C t
    · simp [getReplies_of_visible s C t h, h]
    · simp [getReplies_of_not_visible s C t h, h, invalidRequest]
  · intro hown hself
    have h : ¬ Visible s C t := by
      rintro ⟨tw, htw, hid, hfol⟩
      rw [hown tw htw hid] at hfol
      exact hself hfol
    rw [getTweet_of_not_visible s C t h, getLikes_of_not_visible s C t h,
      getReplies_of_not_visible s C t h]
    exact ⟨rfl, rfl, rfl⟩

/-- Witness of C3 amended, on `demo` with user 1 and their own tweet 11. -/
theorem gate_follow_only_witness :
    (∀ tw ∈ demo.tweet, tw.tweet_id = 11 → tw.user_id = 1) ∧ ¬ Follows demo 1 1 ∧
      (getTweet 1 11 demo).res = ⟨401, .text "Invalid Request"⟩ ∧
      (getLikes 1 11 demo).res = ⟨401, .text "Invalid Request"⟩ ∧
      (getReplies 1 11 demo).res = ⟨401, .text "Invalid Request"⟩ :=
  ⟨by decide, by decide, (gate_follow_only demo 1 11).2.2.2 (by decide) (by decide)⟩

/-! ## C4: delete -/

theorem ownedTweet_eq_none_iff (s : Store) (t C : Nat) :
    ownedTweet s t C = none ↔ ¬ ∃ tw ∈ s.tweet, tw.tweet_id = t ∧ tw.user_id = C := by
  simp [ownedTweet, List.find?_eq_none]

theorem filter_ne_eq_erase (l : List Tweet) (tw : Tweet)
    (hk : (l.map Tweet.tweet_id).Nodup) (hm : tw ∈ l) :
    (l.filter fun x => !decide (x.tweet_id = tw.tweet_id)) = l.erase tw := by
  induction l with
  | nil => cases hm
  | cons a l ih =>
    rw [List.map_cons, List.nodup_cons] at hk
    by_cases ha : a = tw
    · subst ha
      have hall : ∀ x ∈ l, (!decide (x.tweet_id = a.tweet_id)) = true := by
        intro x hx
        have hne : x.tweet_id ≠ a.tweet_id := fun h =>
          hk.1 (h ▸ List.mem_map_of_mem Tweet.tweet_id hx)
        simp [hne]
      simp [List.filter_eq_self.2 hall]
    · have hm' : tw ∈ l := by
        rcases List.mem_cons.1 hm with h | h
        · exact absurd h.symm ha
        · exact h
      have hne : a.tweet_id ≠ tw.tweet_id := fun h =>
        hk.1 (h ▸ List.mem_map_of_mem Tweet.tweet_id hm')
      rw [List.erase_cons_tail (by simpa using ha), ← ih hk.2 hm']
      simp [hne]

/-- C4. For every store, caller `C` and tweet id `t`, delete answers 200
"Tweet Removed" exactly when a tweet with id `t` written by `C` exists; then
only the tweet table changes: it is the old table, in the old order, without
the rows of id `t` (with `tweet_id` a key that is the old table minus that one
tweet), the tweet is gone from `C`'s own-tweets rows and the rows of all other
tweets of `C` are as before.  In every other case the answer is 401
"Invalid Request" and the store is unchanged. -/
theorem delete_owner_only (s : Store) (C t : Nat) :
    ((deleteTweet C t s).res = ⟨200, .text "Tweet Removed"⟩ ↔
      ∃ tw ∈ s.tweet, tw.tweet_id = t ∧ tw.user_id = C) ∧
    ((∃ tw ∈ s.tweet, tw.tweet_id = t ∧ tw.user_id = C) →
      (deleteTweet C t s).store =
        { s with tweet := s.tweet.filter fun x => !decide (x.tweet_id = t) } ∧
      (∀ x, x ∈ (deleteTweet C t s).store.tweet ↔ x ∈ s.tweet ∧ x.tweet_id ≠ t) ∧
      (deleteTweet C t s).store.tweet.Sublist s.tweet ∧
      userTweetRows (deleteTweet C t s).store C =
        ((s.tweet.filter fun x => decide (x.user_id = C)).filter
          fun x => !decide (x.tweet_id = t)).map (userTweetRow s) ∧
      ((s.tweet.map Tweet.tweet_id).Nodup → ∃ tw ∈ s.tweet, tw.tweet_id = t ∧ tw.user_id = C ∧
        (deleteTweet C t s).store.tweet = s.tweet.erase tw)) ∧
    ((¬ ∃ tw ∈ s.tweet, tw.tweet_id = t ∧ tw.user_id = C) →
      (deleteTweet C t s).res = ⟨401, .text "Invalid Request"⟩ ∧
      (deleteTweet C t s).store = s) := by
  cases ho : ownedTweet s t C with
  | none =>
    have hno := (ownedTweet_eq_none_iff s t C).1 ho
    have hd : deleteTweet C t s = invalidRequest s 1 := by simp [deleteTweet, ho]
    refine ⟨?_, fun h => absurd h hno, fun _ => ?_⟩
    · simp [hd, invalidRequest, hno]
    · rw [hd]; exact ⟨rfl, rfl⟩
  | some row =>
    have hex : ∃ tw ∈ s.tweet, tw.tweet_id = t ∧ tw.user_id = C := by
      by_contra hno
      rw [(ownedTweet_eq_none_iff s t C).2 hno] at ho
      cases ho
    have hd : deleteTweet C t s = ⟨⟨200, .text "Tweet Removed"⟩, deleteTweetRows s t, 2⟩ := by
      simp [deleteTweet, ho]
    refine ⟨?_, fun _ => ⟨?_, ?_, ?_, ?_, ?_⟩, fun h => absurd hex h⟩
    · simp [hd, hex]
    · rw [hd]; rfl
    · intro x
      simp [hd, deleteTweetRows, List.mem_filter]
    · rw [hd]
      exact List.filter_sublist _
    · rw [hd]
      simp only [userTweetRows, deleteTweetRows]
      rw [List.filter_comm]
      rfl
    · intro hk
      obtain ⟨tw, htw, hid, hC⟩ := hex
      refine ⟨tw, htw, hid, hC, ?_⟩
      rw [hd]
      subst hid
      exact filter_ne_eq_erase s.tweet tw hk htw

/-- Witness of C4: user 1 deletes their tweet 11 from `demo`. -/
theorem delete_owner_only_witness :
    (∃ tw ∈ demo.tweet, tw.tweet_id = 11 ∧ tw.user_id = 1) ∧
      (demo.tweet.map Tweet.tweet_id).Nodup ∧
      (deleteTweet 1 11 demo).store = demoWithout11 ∧
      ∃ tw ∈ demo.tweet, tw.tweet_id = 11 ∧ tw.user_id = 1 ∧
        (deleteTweet 1 11 demo).store.tweet = demo.tweet.erase tw :=
  ⟨by decide, by decide, by decide,
    ((delete_owner_only demo 1 11).2.1 (by decide)).2.2.2.2 (by decide)⟩

/-! ## C5: replies -/

/-- C5, the code at the failing input. In `demo` user 1 follows the author of
tweet 10, which has two replies; the replies handler puts the first reply in
the `tweet` field and returns only the second one in `replies`. -/
theorem replies_first_row_taken :
    Visible demo 1 10 ∧ replyCount demo 10 = 2 ∧
      repliesJoin demo 10 = [⟨"Ann", "nice"⟩, ⟨"Bob", "thanks"⟩] ∧
      (getReplies 1 10 demo).res =
        ⟨200, .tweetAndReplies (some ⟨"Ann", "nice"⟩) [⟨"Bob", "thanks"⟩]⟩ := by
  decide

/-! ## C6: create, then own tweets -/

theorem lt_nextRowid (ids : List Nat) (a : Nat) (h : a ∈ ids) : a < nextRowid ids := by
  unfold nextRowid
  induction ids with
  | nil => cases h
  | cons b l ih =>
    rw [List.foldr_cons]
    rcases List.mem_cons.1 h with h | h
    · subst h
      exact Nat.lt_succ_of_le (Nat.le_max_left _ _)
    · exact Nat.lt_of_lt_of_le (ih h) (Nat.succ_le_succ (Nat.le_max_right _ _))

theorem userTweetRows_insertTweet (now : Nat) (x : String) (C : Nat) (s : Store) :
    userTweetRows (insertTweet now s x C) C =
      userTweetRows s C ++
        [⟨x, likeCount s (nextRowid (s.tweet.map Tweet.tweet_id)),
          replyCount s (nextRowid (s.tweet.map Tweet.tweet_id)), now⟩] := by
  simp only [userTweetRows, insertTweet, List.filter_append, List.map_append]
  congr 1
  simp [userTweetRow, likeCount, replyCount]

/-- C6, counterexample. User 1 deletes their tweet 11 from `reuseDemo` (200;
the like and the reply on tweet 11 stay) and posts "hello": the new tweet gets
id 11 again and own tweets shows it with likes = 1 and replies = 1, so no row
with body "hello" has zero counts.  The same happens without any delete on
`priorLikeDemo`, whose like table already names tweet id 1. -/
theorem roundtrip_stale_counts :
    (deleteTweet 1 11 reuseDemo).res = ⟨200, .text "Tweet Removed"⟩ ∧
      (createTweet 7 "hello" 1 (deleteTweet 1 11 reuseDemo).store).res =
        ⟨200, .text "Created a Tweet"⟩ ∧
      (getUserTweets 1 (createTweet 7 "hello" 1 (deleteTweet 1 11 reuseDemo).store).store).res =
        ⟨200, .userTweets [⟨"hello", 1, 1, 7⟩]⟩ ∧
      (¬ ∃ row ∈ userTweetRows (createTweet 7 "hello" 1 (deleteTweet 1 11 reuseDemo).store).store 1,
        row.tweet = "hello" ∧ row.likes = 0 ∧ row.replies = 0) ∧
      (getUserTweets 1 (createTweet 7 "hello" 1 priorLikeDemo).store).res =
        ⟨200, .userTweets [⟨"hello", 1, 0, 7⟩]⟩ := by
  decide

/-- C6, amended. For every store, caller `C`, text `x` and clock value `now`,
create answers 200 and own tweets of `C` afterwards is the list of rows `C`
had before followed by one row for the new tweet, with body `x`, timestamp
`now` and the numbers of like and reply rows that carry the id the store
assigns to the new tweet.  When no like or reply row carries that id the new
row has likes = 0 and replies = 0; this is so in particular when every like
and reply row refers to a tweet in the table. -/
theorem create_then_own_tweets (now : Nat) (x : String) (C : Nat) (s : Store) :
    (createTweet now x C s).res = ⟨200, .text "Created a Tweet"⟩ ∧
    (getUserTweets C (createTweet now x C s).store).res =
      ⟨200, .userTweets (userTweetRows s C ++
        [⟨x, likeCount s (nextRowid (s.tweet.map Tweet.tweet_id)),
          replyCount s (nextRowid (s.tweet.map Tweet.tweet_id)), now⟩])⟩ ∧
    ((∀ l ∈ s.like, l.tweet_id ≠ nextRowid (s.tweet.map Tweet.tweet_id)) →
      (∀ r ∈ s.reply, r.tweet_id ≠ nextRowid (s.tweet.map Tweet.tweet_id)) →
      (getUserTweets C (createTweet now x C s).store).res =
        ⟨200, .userTweets (userTweetRows s C ++ [⟨x, 0, 0, now⟩])⟩ ∧
      (⟨x, 0, 0, now⟩ : TweetRow) ∈ userTweetRows (createTweet now x C s).store C ∧
      ∀ row ∈ userTweetRows s C, row ∈ userTweetRows (createTweet now x C s).store C) ∧
    ((∀ l ∈ s.like, ∃ t ∈ s.tweet, t.tweet_id = l.tweet_id) →
      (∀ r ∈ s.reply, ∃ t ∈ s.tweet, t.tweet_id = r.tweet_id) →
      (∀ l ∈ s.like, l.tweet_id ≠ nextRowid (s.tweet.map Tweet.tweet_id)) ∧
      (∀ r ∈ s.reply, r.tweet_id ≠ nextRowid (s.tweet.map Tweet.tweet_id))) := by
  have hrows := userTweetRows_insertTweet now x C s
  have hstore : (createTweet now x C s).store = insertTweet now s x C := rfl
  refine ⟨rfl, ?_, ?_, ?_⟩
  · simp only [getUserTweets, hstore, hrows]
  · intro hl hr
    have h1 : likeCount s (nextRowid (s.tweet.map Tweet.tweet_id)) = 0 := by
      simp only [likeCount, List.length_eq_zero, List.filter_eq_nil_iff, decide_eq_true_eq]
      exact hl
    have h2 : replyCount s (nextRowid (s.tweet.map Tweet.tweet_id)) = 0 := by
      simp only [replyCount, List.length_eq_zero, List.filter_eq_nil_iff, decide_eq_true_eq]
      exact hr
    rw [h1, h2] at hrows
    refine ⟨?_, ?_, ?_⟩
    · simp only [getUserTweets, hstore, hrows]
    · rw [hstore, hrows]; simp
    · intro row hrow
      rw [hstore, hrows]
      exact List.mem_append_left _ hrow
  · intro hl hr
    constructor
    · intro l hlm heq
      obtain ⟨t, ht, hid⟩ := hl l hlm
      have := lt_nextRowid (s.tweet.map Tweet.tweet_id) t.tweet_id
        (List.mem_map_of_mem Tweet.tweet_id ht)
      omega
    · intro r hrm heq
      obtain ⟨t, ht, hid⟩ := hr r hrm
      have := lt_nextRowid (s.tweet.map Tweet.tweet_id) t.tweet_id
        (List.mem_map_of_mem Tweet.tweet_id ht)
      omega

/-- Witness of C6 amended: user 1 posts "hello" in `demo`, where no like or
reply row names the new id 12. -/
theorem create_then_own_tweets_witness :
    (∀ l ∈ demo.like, l.tweet_id ≠ nextRowid (demo.tweet.map Tweet.tweet_id)) ∧
      (∀ r ∈ demo.reply, r.tweet_id ≠ nextRowid (demo.tweet.map Tweet.tweet_id)) ∧
      userTweetRows demo 1 = [⟨"mine", 0, 0, 6⟩] ∧
      (getUserTweets 1 (createTweet 7 "hello" 1 demo).store).res =
        ⟨200, .userTweets (userTweetRows demo 1 ++ [⟨"hello", 0, 0, 7⟩])⟩ :=
  ⟨by decide, by decide, by decide,
    ((create_then_own_tweets 7 "hello" 1 demo).2.2.1 (by decide) (by decide)).1⟩

/-! ## The identities of likers are kept by every mutation -/

theorem likersResolve_register (hash : String → String) (s : Store)
    (username password name gender : String) (t : Nat) (h : LikersResolve s t) :
    LikersResolve (register hash s username password name gender).store t := by
  unfold register
  split
  · exact h
  · split
    · exact h
    · intro l hl hid
      have h1 := h l hl hid
      obtain ⟨u, hu⟩ := List.length_eq_one.1 h1
      have hmem : u ∈ s.user.filter fun u => decide (u.user_id = l.user_id) := by
        rw [hu]; exact List.mem_singleton_self u
      rw [List.mem_filter, decide_eq_true_eq] at hmem
      have hlt := lt_nextRowid (s.user.map User.user_id) u.user_id
        (List.mem_map_of_mem User.user_id hmem.1)
      have hne : nextRowid (s.user.map User.user_id) ≠ l.user_id := by omega
      simp only [insertUser, List.filter_append, List.length_append, h1]
      simp [hne]

theorem likersResolve_createTweet (now : Nat) (x : String) (C : Nat) (s : Store) (t : Nat)
    (h : LikersResolve s t) : LikersResolve (createTweet now x C s).store t :=
  h

theorem likersResolve_deleteTweet (C tweetId : Nat) (s : Store) (t : Nat)
    (h : LikersResolve s t) : LikersResolve (deleteTweet C tweetId s).store t := by
  unfold deleteTweet
  split <;> exact h

/-! ## C7: the auth gate -/

/-- C7. For each of the nine protected routes and every request: when the
Authorization header is absent or empty or the token fails verification, the
response is 401 "Invalid JWT Token", the store is unchanged, no statement is
sent to the store, and this holds whatever the handler behind the gate is (it
is not entered); when verification succeeds the route is its handler run with
the caller id of the token's claim. -/
theorem auth_gate_first (verify : String → Option Nat) (now : Nat) (e : Endpoint)
    (req : Request) (s : Store) :
    ((req.authorization = none ∨ req.authorization = some "" ∨
        ∃ tok, req.authorization = some tok ∧ verify tok = none) →
      route verify now e req s = ⟨⟨401, .text "Invalid JWT Token"⟩, s, 0⟩ ∧
      ∀ next, authenticateToken verify req.authorization next s =
        ⟨⟨401, .text "Invalid JWT Token"⟩, s, 0⟩) ∧
    (∀ tok userId, req.authorization = some tok → tok ≠ "" → verify tok = some userId →
      route verify now e req s = handler now e req userId s ∧
      ∀ next, authenticateToken verify req.authorization next s = next userId s) := by
  have key : (req.authorization = none ∨ req.authorization = some "" ∨
      ∃ tok, req.authorization = some tok ∧ verify tok = none) →
      ∀ next, authenticateToken verify req.authorization next s =
        ⟨⟨401, .text "Invalid JWT Token"⟩, s, 0⟩ := by
    intro h next
    rcases h with h | h | ⟨tok, h, hv⟩
    · simp [authenticateToken, h, invalidJwt]
    · simp [authenticateToken, h, invalidJwt]
    · simp only [authenticateToken, h, hv, invalidJwt]
      split <;> rfl
  have ok : ∀ tok userId, req.authorization = some tok → tok ≠ "" → verify tok = some userId →
      ∀ next, authenticateToken verify req.authorization next s = next userId s := by
    intro tok userId h hne hv next
    simp [authenticateToken, h, hne, hv]
  exact ⟨fun h => ⟨key h _, key h⟩, fun tok userId h hne hv => ⟨ok tok userId h hne hv _,
    ok tok userId h hne hv⟩⟩

/-- Witness of C7: delete of tweet 11 in `demo` without a header, and with the
token of user 1. -/
theorem auth_gate_first_witness :
    route demoVerify 7 .deleteTweet ⟨none, 11, ""⟩ demo =
        ⟨⟨401, .text "Invalid JWT Token"⟩, demo, 0⟩ ∧
      route demoVerify 7 .deleteTweet ⟨some (demoSign 1), 11, ""⟩ demo =
        ⟨⟨200, .text "Tweet Removed"⟩, demoWithout11, 2⟩ := by
  constructor
  · exact ((auth_gate_first demoVerify 7 .deleteTweet ⟨none, 11, ""⟩ demo).1 (Or.inl rfl)).1
  · rw [((auth_gate_first demoVerify 7 .deleteTweet ⟨some (demoSign 1), 11, ""⟩ demo).2
      (demoSign 1) 1 rfl (by decide) (by decide)).1]
    decide

/-! ## C8: register with a short secret -/

theorem userByUsername_eq_none_iff (s : Store) (username : String) :
    userByUsername s username = none ↔ ∀ u ∈ s.user, u.username ≠ username := by
  simp [userByUsername, List.find?_eq_none]

/-- C8, counterexample. In `demo` the handle "ann" is taken; registering it
again with the 3-letter secret "abc" is answered "User already exists", not
"Password is too short". -/
theorem register_taken_handle_short_secret :
    jsLength "abc" < 6 ∧ (∃ u ∈ demo.user, u.username = "ann") ∧
      (register id demo "ann" "abc" "Ann" "f").res = ⟨400, .text "User already exists"⟩ ∧
      (register id demo "ann" "abc" "Ann" "f").res ≠ ⟨400, .text "Password is too short"⟩ := by
  decide

/-- C8, amended. For every store and registration input whose secret has
length below 6, register answers 400 and inserts no identity; the body is
"Password is too short" when the handle is new and "User already exists" when
the handle is already in the store. -/
theorem register_short_secret (hash : String → String) (s : Store)
    (username password name gender : String) (h : jsLength password < 6) :
    (register hash s username password name gender).res.status = 400 ∧
    (register hash s username password name gender).store = s ∧
    ((∀ u ∈ s.user, u.username ≠ username) →
      (register hash s username password name gender).res =
        ⟨400, .text "Password is too short"⟩) ∧
    ((∃ u ∈ s.user, u.username = username) →
      (register hash s username password name gender).res =
        ⟨400, .text "User already exists"⟩) := by
  cases hu : userByUsername s username with
  | none =>
    have hnew := (userByUsername_eq_none_iff s username).1 hu
    have hr : register hash s username password name gender =
        ⟨⟨400, .text "Password is too short"⟩, s, 1⟩ := by
      simp [register, hu, h]
    rw [hr]
    exact ⟨rfl, rfl, fun _ => rfl, fun ⟨u, hm, he⟩ => absurd he (hnew u hm)⟩
  | some row =>
    have hr : register hash s username password name gender =
        ⟨⟨400, .text "User already exists"⟩, s, 1⟩ := by
      simp [register, hu]
    rw [hr]
    refine ⟨rfl, rfl, fun hnew => ?_, fun _ => rfl⟩
    rw [(userByUsername_eq_none_iff s username).2 hnew] at hu
    cases hu

/-- Witness of C8 amended: the new handle "cy" with the secret "abc" in `demo`. -/
theorem register_short_secret_witness :
    jsLength "abc" < 6 ∧ (∀ u ∈ demo.user, u.username ≠ "cy") ∧
      (register id demo "cy" "abc" "Cy" "m").res = ⟨400, .text "Password is too short"⟩ ∧
      (register id demo "cy" "abc" "Cy" "m").store = demo :=
  ⟨by decide, by decide,
    (register_short_secret id demo "cy" "abc" "Cy" "m" (by decide)).2.2.1 (by decide),
    (register_short_secret id demo "cy" "abc" "Cy" "m" (by decide)).2.1⟩

/-! ## C9: login -/

theorem demoVerify_demoSign (userId : Nat) : demoVerify (demoSign userId) = some userId := by
  simp [demoVerify, demoSign]

/-- C9. Let `compare` check a secret against a stored hash and let `sign`,
`verify` be a token service with `verify (sign id) = some id` that refuses the
empty token.  For every store, handle and secret, with the row matched by the
handle being the first row of that handle: login answers 400 "Invalid user"
exactly when no identity has the handle, 400 "Invalid password" exactly when
the handle is matched and the secret does not verify against the matched row's
hash, and otherwise 200 with the token signed for the matched row's id, which
the auth gate accepts and turns into that id for whatever handler follows. -/
theorem login_outcome (compare : String → String → Bool) (sign : Nat → String)
    (verify : String → Option Nat) (s : Store) (username password : String)
    (hroundtrip : ∀ userId, verify (sign userId) = some userId)
    (hempty : verify "" = none) :
    ((login compare sign s username password).res = ⟨400, .text "Invalid user"⟩ ↔
      ∀ u ∈ s.user, u.username ≠ username) ∧
    ((login compare sign s username password).res = ⟨400, .text "Invalid password"⟩ ↔
      ∃ row, userByUsername s username = some row ∧ compare password row.password = false) ∧
    (∀ row, userByUsername s username = some row →
      row ∈ s.user ∧ row.username = username ∧
      (compare password row.password = true →
        (login compare sign s username password).res = ⟨200, .jwtToken (sign row.user_id)⟩ ∧
        ∀ next s', authenticateToken verify (some (sign row.user_id)) next s' =
          next row.user_id s')) ∧
    (login compare sign s username password).store = s := by
  have hne : ∀ userId, sign userId ≠ "" := by
    intro userId h
    have h1 := hroundtrip userId
    rw [h, hempty] at h1
    cases h1
  cases hu : userByUsername s username with
  | none =>
    have hnew := (userByUsername_eq_none_iff s username).1 hu
    have hl : login compare sign s username password = ⟨⟨400, .text "Invalid user"⟩, s, 1⟩ := by
      simp [login, hu]
    rw [hl]
    refine ⟨?_, ?_, ?_, rfl⟩
    · simp only [true_iff]; exact hnew
    · simp
    · intro row h; cases h
  | some row =>
    have hmem : row ∈ s.user := List.mem_of_find?_eq_some hu
    have hname : row.username = username := by
      have := List.find?_some hu
      simpa using this
    have hnot : ¬ ∀ u ∈ s.user, u.username ≠ username := fun h => h row hmem hname
    cases hc : compare password row.password with
    | true =>
      have hl : login compare sign s username password =
          ⟨⟨200, .jwtToken (sign row.user_id)⟩, s, 1⟩ := by
        simp [login, hu, hc]
      rw [hl]
      refine ⟨?_, ?_, ?_, rfl⟩
      · simp [hnot]
      · simp [hc]
      · intro row' h
        cases h
        refine ⟨hmem, hname, fun _ => ⟨rfl, fun next s' => ?_⟩⟩
        simp [authenticateToken, hne, hroundtrip]
    | false =>
      have hl : login compare sign s username password =
          ⟨⟨400, .text "Invalid password"⟩, s, 1⟩ := by
        simp [login, hu, hc]
      rw [hl]
      refine ⟨?_, ?_, ?_, rfl⟩
      · simp [hnot]
      · simp [hc]
      · intro row' h
        cases h
        exact ⟨hmem, hname, fun h => by simp [hc] at h⟩

/-- Witness of C9 with the example services on `demo`: "ann" with her secret
gets the token of id 1, which the gate in front of own tweets accepts as
caller 1; a wrong secret and an unknown handle are refused. -/
theorem login_outcome_witness :
    (∀ userId, demoVerify (demoSign userId) = some userId) ∧ demoVerify "" = none ∧
      (login demoCompare demoSign demo "ann" "h1").res = ⟨200, .jwtToken (demoSign 1)⟩ ∧
      authenticateToken demoVerify (some (demoSign 1)) getUserTweets demo =
        getUserTweets 1 demo ∧
      (login demoCompare demoSign demo "ann" "wrong").res = ⟨400, .text "Invalid password"⟩ ∧
      (login demoCompare demoSign demo "zed" "h1").res = ⟨400, .text "Invalid user"⟩ := by
  have h := login_outcome demoCompare demoSign demoVerify demo "ann" "h1"
    demoVerify_demoSign (by decide)
  have hrow := h.2.2.1 ⟨1, "Ann", "ann", "h1", "f"⟩ (by decide)
  have hok := hrow.2.2 (by decide)
  exact ⟨demoVerify_demoSign, by decide, hok.1, hok.2 getUserTweets demo, by decide, by decide⟩

/-! ## C10: likes -/

theorem likes_of_resolved (users : List User) (likes : List Like)
    (h : ∀ l ∈ likes, (users.filter fun u => decide (u.user_id = l.user_id)).length = 1) :
    ((likes.flatMap fun l =>
        (users.filter fun u => decide (u.user_id = l.user_id)).map fun u => u.username).map some =
      likes.map fun l =>
        (users.find? fun u => decide (u.user_id = l.user_id)).map User.username) ∧
    (likes.flatMap fun l =>
        (users.filter fun u => decide (u.user_id = l.user_id)).map fun u => u.username).length =
      likes.length := by
  induction likes with
  | nil => exact ⟨rfl, rfl⟩
  | cons l ls ih =>
    obtain ⟨ih1, ih2⟩ := ih fun x hx => h x (List.mem_cons_of_mem _ hx)
    obtain ⟨u, hu⟩ := List.length_eq_one.1 (h l (List.mem_cons_self _ _))
    have hfind : (users.find? fun u => decide (u.user_id = l.user_id)) = some u := by
      rw [← List.filter_head?, hu]; rfl
    rw [List.flatMap_cons, hu]
    constructor
    · rw [List.map_append, ih1]
      simp [hfind]
    · rw [List.length_append, ih2, List.length_cons]
      simp [Nat.add_comm]

/-- C10, counterexample. In `danglingLikeDemo` tweet 10 has two like rows, by
user 1 and by user id 7, and no identity has id 7.  User 1 follows the author:
tweet detail reports likes = 2 while the likes view lists the single handle
"ann", so the list has no entry for the second like row and its length is not
the reported count. -/
theorem likes_shorter_than_count :
    Visible danglingLikeDemo 1 10 ∧
      (danglingLikeDemo.like.filter fun l => decide (l.tweet_id = 10)).length = 2 ∧
      (∀ u ∈ danglingLikeDemo.user, u.user_id ≠ 7) ∧
      (getTweet 1 10 danglingLikeDemo).res = ⟨200, .tweetDetail ⟨"hi", 2, 2, 5⟩⟩ ∧
      (getLikes 1 10 danglingLikeDemo).res = ⟨200, .likes ["ann"]⟩ ∧
      (likesJoin danglingLikeDemo 10).length ≠ likeCount danglingLikeDemo 10 := by
  decide

/-- C10, amended. For every store, caller `C` and tweet id `t`: likes is
refused with 401 "Invalid Request" exactly when tweet detail is refused for
the same `C` and `t`; on success it answers 200 with the handles produced by
joining the like rows of `t` with the identities, a handle being listed
exactly when an identity with that handle has a like row on `t`; and when
every like row of `t` carries the id of exactly one identity the list has one
entry per like row, the handle of its liker in like-row order, so its length
is the like count in the tweet-detail response. -/
theorem likes_view (s : Store) (C t : Nat) :
    ((getLikes C t s).res = ⟨401, .text "Invalid Request"⟩ ↔
      (getTweet C t s).res = ⟨401, .text "Invalid Request"⟩) ∧
    ((getLikes C t s).res.status = 200 ↔ (getTweet C t s).res.status = 200) ∧
    (Visible s C t → (getLikes C t s).res = ⟨200, .likes (likesJoin s t)⟩) ∧
    (∀ h, h ∈ likesJoin s t ↔
      ∃ l ∈ s.like, l.tweet_id = t ∧ ∃ u ∈ s.user, u.user_id = l.user_id ∧ u.username = h) ∧
    (LikersResolve s t →
      (likesJoin s t).map some =
        (s.like.filter fun l => decide (l.tweet_id = t)).map (fun l => handleOf s l.user_id) ∧
      (likesJoin s t).length = likeCount s t ∧
      ∀ row, (getTweet C t s).res = ⟨200, .tweetDetail row⟩ →
        (likesJoin s t).length = row.likes) := by
  refine ⟨?_, ?_, ?_, ?_, ?_⟩
  · by_cases h : Visible s C t
    · obtain ⟨tw, -, -, -, hres⟩ := getTweet_of_visible s C t h
      simp [hres, getLikes_of_visible s C t h]
    · simp [getTweet_of_not_visible s C t h, getLikes_of_not_visible s C t h]
  · by_cases h : Visible s C t
    · obtain ⟨tw, -, -, -, hres⟩ := getTweet_of_visible s C t h
      simp [hres, getLikes_of_visible s C t h]
    · simp [getTweet_of_not_visible s C t h, getLikes_of_not_visible s C t h]
  · intro h
    rw [getLikes_of_visible s C t h]
  · intro h
    simp only [likesJoin, List.mem_flatMap, List.mem_filter, List.mem_map, decide_eq_true_eq]
    constructor
    · rintro ⟨l, ⟨hl, hid⟩, u, ⟨hu, hul⟩, rfl⟩
      exact ⟨l, hl, hid, u, hu, hul, rfl⟩
    · rintro ⟨l, hl, hid, u, hu, hul, rfl⟩
      exact ⟨l, ⟨hl, hid⟩, u, ⟨hu, hul⟩, rfl⟩
  · intro hres
    have hall : ∀ l ∈ s.like.filter (fun l => decide (l.tweet_id = t)),
        (s.user.filter fun u => decide (u.user_id = l.user_id)).length = 1 := by
      intro l hl
      rw [List.mem_filter, decide_eq_true_eq] at hl
      exact hres l hl.1 hl.2
    obtain ⟨h1, h2⟩ := likes_of_resolved s.user _ hall
    refine ⟨h1, h2, fun row hrow => ?_⟩
    by_cases h : Visible s C t
    · obtain ⟨tw, -, -, -, hd⟩ := getTweet_of_visible s C t h
      rw [hd] at hrow
      simp only [Response.mk.injEq, Body.tweetDetail.injEq, true_and] at hrow
      rw [← hrow]
      exact h2
    · rw [getTweet_of_not_visible s C t h] at hrow
      simp [invalidRequest] at hrow

/-- Witness of C10 amended on `demo`: user 1 reads the likes of tweet 10. -/
theorem likes_view_witness :
    LikersResolve demo 10 ∧ (getLikes 1 10 demo).res = ⟨200, .likes ["ann"]⟩ ∧
      (getTweet 1 10 demo).res = ⟨200, .tweetDetail ⟨"hi", 1, 2, 5⟩⟩ ∧
      (likesJoin demo 10).length = likeCount demo 10 :=
  ⟨by decide, by decide, by decide, ((likes_view demo 1 10).2.2.2.2 (by decide)).2.1⟩

end Tweets
